import Mathlib

/-!
# Verification of the PV-dashboard core logic

Shallow embedding of the search / pagination / enrichment logic of the
dashboard screen and of the detail-screen aggregator of the repository,
together with proofs of the spec's testable properties.

Conventions of the embedding:
* JS `number` values carried by telemetry channels are modelled as exact
  rationals; binary floating-point rounding is out of scope.
* A fallible asynchronous call is an `Except String α` value (the string is
  the thrown error's message); a call that can resolve to null carries an
  `Option`.
* JS `Array.prototype.sort` with a consistent comparator is a stable sort,
  so its result is modelled by `List.insertionSort`, which produces the
  unique stable sorted permutation.
* `localeCompare` under the default locale compares ASCII strings
  case-insensitively at primary strength; it is modelled as lexicographic
  comparison of the lower-cased strings.
* `formatLastUpdated` renders a timestamp relative to the wall clock; the
  wall clock is outside the embedding, so that rendering is abstracted as
  an arbitrary function `fmtLast : String → String` applied to the
  timestamp string selected by the source.
* `toLowerCase` is modelled character-wise (ASCII) via `Char.toLower`.
-/

/-- Embedding of the JS test on a trimmed string being falsy (the string is
empty or whitespace-only): every character is whitespace. -/
def jsBlank (s : String) : Bool :=
  s.toList.all (·.isWhitespace)

/-- Embedding of JS `includes`: `q` occurs as a contiguous substring of `s`. -/
def containsSub (s q : String) : Bool :=
  (List.range (s.toList.length + 1)).any (fun i => q.toList.isPrefixOf (s.toList.drop i))

/-- Embedding of JS `toLowerCase` (ASCII), character by character. -/
def jsToLower (s : String) : String :=
  ⟨s.toList.map Char.toLower⟩

/-- Lexicographic comparison of character lists by code point. -/
def charListLe : List Char → List Char → Bool
  | [], _ => true
  | _ :: _, [] => false
  | a :: as, b :: bs =>
    if a.toNat < b.toNat then true
    else if b.toNat < a.toNat then false
    else charListLe as bs

/-- Lexicographic string comparison (code-point order). -/
def strLe (a b : String) : Bool :=
  charListLe a.toList b.toList

/-- Left-pad a natural below 100 to two decimal digits. -/
def pad2 (n : ℕ) : String :=
  if n < 10 then "0" ++ toString n else toString n

/-- Embedding of JS `toFixed(1)` (round half away from zero; exact on the
nonnegative exact-tenth values produced by the program). -/
def toFixed1 (q : ℚ) : String :=
  (fun n : ℤ =>
    (if n < 0 then "-" else "") ++ toString (n.natAbs / 10) ++ "." ++ toString (n.natAbs % 10))
  ⌊q * 10 + 1 / 2⌋

/-- Embedding of JS `toFixed(2)`. -/
def toFixed2 (q : ℚ) : String :=
  (fun n : ℤ =>
    (if n < 0 then "-" else "") ++ toString (n.natAbs / 100) ++ "." ++ pad2 (n.natAbs % 100))
  ⌊q * 100 + 1 / 2⌋

/-! ## Data model (from the TS interfaces and their uses) -/

/-- The status literal union of the list screen. -/
inductive Status where
  | online
  | offline
  | warning
deriving DecidableEq, Repr

/-- A named telemetry channel; `value` is nullable. -/
structure Channel where
  channelName : String
  value : Option ℚ
deriving DecidableEq, Repr

structure FlowStatus where
  isOnline : Bool
deriving DecidableEq, Repr

structure FlowBody where
  logDateTime : Option String
  channels : Option (List Channel)
deriving DecidableEq, Repr

/-- `FlowDataResponse`: live telemetry; `status` and `data` are both
null-checked by the source, hence optional. -/
structure FlowDataResponse where
  status : Option FlowStatus
  data : Option FlowBody
deriving DecidableEq, Repr

/-- One day-granularity row of an aggregated response; `channels` is
null-checked by `extractDailyEnergy`, hence optional. -/
structure AggrRow where
  logDateTime : String
  channels : Option (List Channel)
deriving DecidableEq, Repr

/-- `AggregatedDataResponse`. The detail screen folds over `data` without a
null check, so `data` is a plain list (an empty response is `[]`). -/
structure AggregatedDataResponse where
  data : List AggrRow
deriving DecidableEq, Repr

structure PvAddress where
  street : Option String
  city : Option String
  state : Option String
  country : Option String
deriving DecidableEq, Repr

/-- `PvSystemMetadata` (the fields the dashboard logic reads). -/
structure PvSystemMetadata where
  pvSystemId : String
  name : String
  address : PvAddress
  pictureURL : Option String
  peakPower : Option ℚ
  lastImport : String
deriving DecidableEq, Repr

/-- `EnhancedPvSystem`: an enriched display record of the list screen.
`lastUpdated` holds the rendered relative-time string. -/
structure EnhancedPvSystem where
  id : String
  name : String
  address : String
  status : Status
  power : String
  daily : String
  lastUpdated : String
  pictureURL : Option String
  peakPower : Option ℚ
  isActive : Bool
deriving DecidableEq, Repr

/-- `BasicPvSystem`: a directory-cache entry used only for search. -/
structure BasicPvSystem where
  id : String
  name : String
  address : String
  pictureURL : Option String
deriving DecidableEq, Repr

/-! ## List-screen helpers (from the dashboard source) -/

/-- Embedding of `formatAddress`: join the parts that survive
`filter(Boolean)` (drops null and empty strings) with `", "`. -/
def formatAddress (address : PvAddress) : String :=
  String.intercalate ", "
    (([address.street, address.city, address.state, address.country].filterMap id).filter
      (fun s => !s.isEmpty))

/-- Embedding of `determineStatus`: offline unless the flow payload exists,
carries a status object, and reports `isOnline`. -/
def determineStatus (flowData : Option FlowDataResponse) : Status :=
  match flowData with
  | none => .offline
  | some f =>
    match f.status with
    | none => .offline
    | some s => if s.isOnline then .online else .offline

/-- Embedding of `extractPower`: the PowerPV channel in kW, `"0 kW"` when
the payload, channel or value is missing. -/
def extractPower (flowData : Option FlowDataResponse) : String :=
  match (flowData.bind (·.data)).bind (·.channels) with
  | none => "0 kW"
  | some channels =>
    match channels.find? (fun c => c.channelName == "PowerPV") with
    | none => "0 kW"
    | some powerChannel =>
      match powerChannel.value with
      | none => "0 kW"
      | some v => toFixed1 (v / 1000) ++ " kW"

/-- Embedding of `extractDailyEnergy`: the first row's energy channel in
kWh, `"0 kWh"` when anything along the path is missing. -/
def extractDailyEnergy (aggrData : Option AggregatedDataResponse) : String :=
  match aggrData with
  | none => "0 kWh"
  | some a =>
    match a.data.head? with
    | none => "0 kWh"
    | some row =>
      match row.channels with
      | none => "0 kWh"
      | some channels =>
        match channels.find? (fun c =>
            c.channelName == "EnergyProductionTotal" ||
            c.channelName == "EnergyProduction" ||
            c.channelName == "EnergyDay") with
        | none => "0 kWh"
        | some energyChannel =>
          match energyChannel.value with
          | none => "0 kWh"
          | some v => toFixed1 (v / 1000) ++ " kWh"

/-- The timestamp string handed to `formatLastUpdated`: the flow payload's
log time when present and non-empty (JS truthiness), else `lastImport`. -/
def lastUpdatedSource (flowData : Option FlowDataResponse) (system : PvSystemMetadata) : String :=
  match (flowData.bind (·.data)).bind (·.logDateTime) with
  | none => system.lastImport
  | some d => if d.isEmpty then system.lastImport else d

/-- Embedding of `formatPvSystemData`; `fmtLast` abstracts the wall-clock
relative-time renderer `formatLastUpdated`. -/
def formatPvSystemData (fmtLast : String → String) (system : PvSystemMetadata)
    (flowData : Option FlowDataResponse) (aggrToday : Option AggregatedDataResponse) :
    EnhancedPvSystem :=
  let status := determineStatus flowData
  { id := system.pvSystemId
    name := system.name
    address := formatAddress system.address
    status := status
    power := extractPower flowData
    daily := extractDailyEnergy aggrToday
    lastUpdated := fmtLast (lastUpdatedSource flowData system)
    pictureURL := system.pictureURL
    peakPower := system.peakPower
    isActive := status == .online }

/-- Embedding of `formatBasicSystemData`. -/
def formatBasicSystemData (system : PvSystemMetadata) : BasicPvSystem :=
  { id := system.pvSystemId
    name := system.name
    address := formatAddress system.address
    pictureURL := system.pictureURL }

/-- The page-sort comparator as a weak order: active systems first, then
names compared case-insensitively (the `localeCompare` model). -/
def sysLE (a b : EnhancedPvSystem) : Bool :=
  if a.isActive && !b.isActive then true
  else if !a.isActive && b.isActive then false
  else strLe (jsToLower a.name) (jsToLower b.name)

def sysLER (a b : EnhancedPvSystem) : Prop := sysLE a b = true

instance : DecidableRel sysLER := fun _ _ => inferInstanceAs (Decidable (_ = true))

/-- Embedding of the page sort (JS stable `Array.prototype.sort`). -/
def sortSystems (l : List EnhancedPvSystem) : List EnhancedPvSystem :=
  l.insertionSort sysLER

/-- One fetched page item together with the outcome of its two enrichment
fetches (flow, then today's aggregate), in the order the source issues
them. -/
structure PageItem where
  system : PvSystemMetadata
  flowRes : Except String (Option FlowDataResponse)
  aggrRes : Except String (Option AggregatedDataResponse)

/-- Per-item enrichment of a page item. Mirrors the try/catch over the two
sequential awaits: if the flow fetch throws, neither local is assigned; if
only the aggregate fetch throws, the already-assigned flow data is kept. -/
def enrichPageItem (fmtLast : String → String) (it : PageItem) : EnhancedPvSystem :=
  match it.flowRes with
  | .error _ => formatPvSystemData fmtLast it.system none none
  | .ok flowData =>
    match it.aggrRes with
    | .error _ => formatPvSystemData fmtLast it.system flowData none
    | .ok aggrToday => formatPvSystemData fmtLast it.system flowData aggrToday

/-- Joint outcome of the three per-match fetches of the search path (flow,
full details, today's aggregate): either all resolve, or the single catch
fires. -/
inductive SearchFetch where
  | ok (details : PvSystemMetadata) (flow : Option FlowDataResponse)
      (aggrToday : Option AggregatedDataResponse)
  | fail (msg : String)

/-- The partial record substituted when a search match fails to enrich. -/
def offlineFallback (basicSystem : BasicPvSystem) : EnhancedPvSystem :=
  { id := basicSystem.id
    name := basicSystem.name
    address := basicSystem.address
    status := .offline
    power := "0 kW"
    daily := "0 kWh"
    lastUpdated := "unknown"
    pictureURL := basicSystem.pictureURL
    peakPower := none
    isActive := false }

/-- Per-match enrichment of the search path: reuse an already-enriched
record when present, else fetch, else fall back to the offline record. -/
def enrichSearchItem (fmtLast : String → String) (pvSystems : List EnhancedPvSystem)
    (fetch : String → SearchFetch) (basicSystem : BasicPvSystem) : EnhancedPvSystem :=
  match pvSystems.find? (fun sys => sys.id == basicSystem.id) with
  | some existingSystem => existingSystem
  | none =>
    match fetch basicSystem.id with
    | .ok details flow aggrToday => formatPvSystemData fmtLast details flow aggrToday
    | .fail _ => offlineFallback basicSystem

/-- The dashboard screen's state (the `useState` cells), with the initial
values as defaults. -/
structure DashState where
  refreshing : Bool := false
  pvSystems : List EnhancedPvSystem := []
  filteredSystems : List EnhancedPvSystem := []
  searchQuery : String := ""
  loading : Bool := true
  error : Option String := none
  totalSystems : ℕ := 0
  currentPage : ℕ := 0
  hasMorePages : Bool := true
  isLoadingMore : Bool := false
  allSystemsBasicInfo : List BasicPvSystem := []
  isSearching : Bool := false
  isLoadingAllSystems : Bool := true
deriving DecidableEq, Repr

def SYSTEMS_PER_PAGE : ℕ := 10

/-- The substring match of the search paths over name, id and address. -/
def basicMatchesQuery (lowercaseQuery : String) (s : BasicPvSystem) : Bool :=
  containsSub (jsToLower s.name) lowercaseQuery ||
  containsSub (jsToLower s.id) lowercaseQuery ||
  containsSub (jsToLower s.address) lowercaseQuery

/-- The same match over an enriched record (degraded-mode filter). -/
def enhancedMatchesQuery (lowercaseQuery : String) (s : EnhancedPvSystem) : Bool :=
  containsSub (jsToLower s.name) lowercaseQuery ||
  containsSub (jsToLower s.id) lowercaseQuery ||
  containsSub (jsToLower s.address) lowercaseQuery

/-- Embedding of `applySearchFilter`: the list it stores into
`filteredSystems`. A blank query reverts to `pvSystems`; otherwise the
directory cache is matched, capped at 20, and each match enriched. -/
def applySearchFilter (fmtLast : String → String) (st : DashState) (query : String)
    (fetch : String → SearchFetch) : List EnhancedPvSystem :=
  if jsBlank query then st.pvSystems
  else
    let lowercaseQuery := jsToLower query
    let matchedBasicSystems := st.allSystemsBasicInfo.filter (basicMatchesQuery lowercaseQuery)
    if matchedBasicSystems.isEmpty then []
    else (matchedBasicSystems.take 20).map (enrichSearchItem fmtLast st.pvSystems fetch)

/-- Embedding of the search `useEffect`: with a populated directory cache it
delegates to `applySearchFilter`; otherwise, if a page is loaded, it filters
the enriched list directly (degraded mode, no trim and no cap); otherwise it
leaves `filteredSystems` untouched. -/
def searchEffect (fmtLast : String → String) (st : DashState) (searchQuery : String)
    (fetch : String → SearchFetch) : List EnhancedPvSystem :=
  if st.allSystemsBasicInfo.length > 0 then
    applySearchFilter fmtLast st searchQuery fetch
  else if st.pvSystems.length > 0 then
    st.pvSystems.filter (enhancedMatchesQuery (jsToLower searchQuery))
  else
    st.filteredSystems

/-- Embedding of `loadPvSystemsPage` as an atomic state transition from the
fetch outcomes. `fetched` is the page fetch (offset `page * SYSTEMS_PER_PAGE`,
limit `SYSTEMS_PER_PAGE`); each item carries its enrichment outcomes. The
`applySearchFilter` call inside reads the pre-update `pvSystems` (the stale
render closure), which the use of `st` mirrors. -/
def loadPvSystemsPage (fmtLast : String → String) (st : DashState) (page : ℕ)
    (fetched : Except String (List PageItem)) (fetch : String → SearchFetch) : DashState :=
  match fetched with
  | .error _ =>
    { st with error := some "Failed to load PV systems. Please try again.",
              loading := false, isLoadingMore := false }
  | .ok systemsData =>
    if systemsData.isEmpty then
      { st with error := if page = 0 then some "No PV systems found" else st.error,
                hasMorePages := false, loading := false, isLoadingMore := false }
    else
      let sortedSystems := sortSystems (systemsData.map (enrichPageItem fmtLast))
      { st with
        hasMorePages := systemsData.length == SYSTEMS_PER_PAGE
        pvSystems := if page = 0 then sortedSystems else st.pvSystems ++ sortedSystems
        filteredSystems :=
          if jsBlank st.searchQuery then
            (if page = 0 then sortedSystems else st.filteredSystems ++ sortedSystems)
          else applySearchFilter fmtLast st st.searchQuery fetch
        currentPage := page
        loading := false
        isLoadingMore := false }

/-- Embedding of `handleLoadMore`: guarded next-page load. -/
def handleLoadMore (fmtLast : String → String) (st : DashState)
    (fetched : Except String (List PageItem)) (fetch : String → SearchFetch) : DashState :=
  if !st.isLoadingMore && st.hasMorePages && jsBlank st.searchQuery then
    loadPvSystemsPage fmtLast st (st.currentPage + 1) fetched fetch
  else st

/-- Embedding of `loadAllSystemsBasicInfo`: wholesale directory refresh;
failures and empty responses leave the previous directory untouched. -/
def loadAllSystemsBasicInfo (st : DashState)
    (result : Except String (List PvSystemMetadata)) : DashState :=
  match result with
  | .error _ => { st with isLoadingAllSystems := false }
  | .ok allSystemsData =>
    if allSystemsData.isEmpty then { st with isLoadingAllSystems := false }
    else
      let basicSystemsInfo := allSystemsData.map formatBasicSystemData
      { st with allSystemsBasicInfo := basicSystemsInfo,
                totalSystems := basicSystemsInfo.length,
                isLoadingAllSystems := false }

/-! ## Detail-screen model (from the pv-detail source) -/

/-- `SystemMessage` (error/status messages). -/
structure SystemMessage where
  pvSystemId : String
  deviceId : String
  stateType : String
  stateSeverity : String
  stateCode : ℕ
  logDateTime : String
  text : String
deriving DecidableEq, Repr

structure DeviceMetadata where
  deviceId : String
deriving DecidableEq, Repr

structure WeatherBody where
  channels : List Channel
deriving DecidableEq, Repr

structure CurrentWeatherResponse where
  data : Option WeatherBody
deriving DecidableEq, Repr

/-- Embedding of the shared `findChannelValue` helper: first channel with
the given name, its (nullable) value, null on any miss. -/
def findChannelValue (channels : Option (List Channel)) (channelName : String) : Option ℚ :=
  match channels with
  | none => none
  | some cs =>
    match cs.find? (fun c => c.channelName == channelName) with
    | none => none
    | some c => c.value

/-- Embedding of the period-total `reduce`: sum the requested channel's
value over all rows, a missing channel or null value contributing zero. -/
def sumChannelTotal (rows : List AggrRow) (channelName : String) : ℚ :=
  rows.foldl (fun total item => total + ((findChannelValue item.channels channelName).getD 0)) 0

/-- The detail screen's state (the `useState` cells), initial values as
defaults. -/
structure DetailState where
  refreshing : Bool := false
  hasAccess : Option Bool := none
  checkingAccess : Bool := true
  pvSystemId : Option String := none
  pvSystemDetails : Option PvSystemMetadata := none
  flowData : Option FlowDataResponse := none
  aggregatedDataToday : Option AggregatedDataResponse := none
  aggregatedDataTotal : Option AggregatedDataResponse := none
  weatherData : Option CurrentWeatherResponse := none
  messages : List SystemMessage := []
  devices : List DeviceMetadata := []
  loading : Bool := true
  error : Option String := none
  weeklyEnergyProduction : Option ℚ := none
  monthlyEnergyProduction : Option ℚ := none
  yearlyEnergyProduction : Option ℚ := none
  dailyCo2Savings : Option ℚ := none
  weeklyCo2Savings : Option ℚ := none
  monthlyCo2Savings : Option ℚ := none
  yearlyCo2Savings : Option ℚ := none

/-- The outcomes of the fourteen fetches settled by `fetchAllData`'s
`Promise.allSettled` batch, in source order. `msgs` resolves to `none` when
the payload is not an array. -/
structure DetailFetches where
  details : Except String PvSystemMetadata
  flow : Except String (Option FlowDataResponse)
  aggrToday : Except String AggregatedDataResponse
  aggrWeek : Except String AggregatedDataResponse
  aggrMonth : Except String AggregatedDataResponse
  aggrYear : Except String AggregatedDataResponse
  aggrCo2Today : Except String AggregatedDataResponse
  aggrCo2Week : Except String AggregatedDataResponse
  aggrCo2Month : Except String AggregatedDataResponse
  aggrCo2Year : Except String AggregatedDataResponse
  aggrTotal : Except String AggregatedDataResponse
  weather : Except String CurrentWeatherResponse
  msgs : Except String (Option (List SystemMessage))
  devs : Except String (Option (List DeviceMetadata))

/-- Embedding of `fetchAllData` as an atomic state transition from the
settled batch. A rejected essential `details` fetch rethrows before any
other setter runs; every other rejection only skips (or, for messages,
clears) its own setter. -/
def fetchAllData (st : DetailState) (r : DetailFetches) : DetailState :=
  if st.hasAccess = some false then st
  else
    match st.pvSystemId with
    | none =>
      { st with error := some "Failed to load system data: Invalid or missing PV System ID",
                loading := false, refreshing := false }
    | some _ =>
      match r.details with
      | .error msg =>
        { st with error := some ("Failed to load system data: " ++ msg),
                  loading := false, refreshing := false }
      | .ok details =>
        { st with
          pvSystemDetails := some details
          flowData := (match r.flow with | .ok v => v | .error _ => st.flowData)
          aggregatedDataToday :=
            (match r.aggrToday with | .ok v => some v | .error _ => st.aggregatedDataToday)
          weeklyEnergyProduction :=
            (match r.aggrWeek with
              | .ok a => some (sumChannelTotal a.data "EnergyProductionTotal")
              | .error _ => st.weeklyEnergyProduction)
          monthlyEnergyProduction :=
            (match r.aggrMonth with
              | .ok a => some (sumChannelTotal a.data "EnergyProductionTotal")
              | .error _ => st.monthlyEnergyProduction)
          yearlyEnergyProduction :=
            (match r.aggrYear with
              | .ok a => some (sumChannelTotal a.data "EnergyProductionTotal")
              | .error _ => st.yearlyEnergyProduction)
          aggregatedDataTotal :=
            (match r.aggrTotal with | .ok v => some v | .error _ => st.aggregatedDataTotal)
          weatherData := (match r.weather with | .ok v => some v | .error _ => st.weatherData)
          messages :=
            (match r.msgs with
              | .ok (some list) => list
              | .ok none => []
              | .error _ => [])
          devices := (match r.devs with | .ok v => v.getD [] | .error _ => st.devices)
          dailyCo2Savings :=
            (match r.aggrCo2Today with
              | .ok a => findChannelValue (a.data.head?.bind (·.channels)) "SavingsCO2"
              | .error _ => st.dailyCo2Savings)
          weeklyCo2Savings :=
            (match r.aggrCo2Week with
              | .ok a => some (sumChannelTotal a.data "SavingsCO2")
              | .error _ => st.weeklyCo2Savings)
          monthlyCo2Savings :=
            (match r.aggrCo2Month with
              | .ok a => some (sumChannelTotal a.data "SavingsCO2")
              | .error _ => st.monthlyCo2Savings)
          yearlyCo2Savings :=
            (match r.aggrCo2Year with
              | .ok a => some (sumChannelTotal a.data "SavingsCO2")
              | .error _ => st.yearlyCo2Savings)
          error := none
          loading := false
          refreshing := false }

/-- Embedding of `latestErrorMessages`. -/
def latestErrorMessages (messages : List SystemMessage) : List SystemMessage :=
  messages.filter (fun m => m.stateSeverity == "Error")

/-- Embedding of `systemIsOnline` (the nullish-coalesced chain). -/
def systemIsOnline (flowData : Option FlowDataResponse) : Bool :=
  (((flowData.bind (·.status)).map (·.isOnline)).getD false)

/-- Embedding of the detail screen's `systemStatus` derivation. -/
def systemStatus (flowData : Option FlowDataResponse) (messages : List SystemMessage) : Status :=
  if !(systemIsOnline flowData) then .offline
  else if (latestErrorMessages messages).length > 0 then .warning
  else .online

/-- Embedding of `calculateEarnings`: dollars at $0.40/kWh, two decimals. -/
def calculateEarnings (energyWh : Option ℚ) : String :=
  match energyWh with
  | none => "N/A"
  | some e => "$" ++ toFixed2 (e / 1000 * 0.4)

/-- The dashboard-card rendering of an energy total in kWh. -/
def displayEnergyKWh (v : Option ℚ) : String :=
  match v with
  | none => "N/A"
  | some e => toFixed1 (e / 1000) ++ " kWh"

/-- Which top-level screen the detail component returns. -/
inductive Screen where
  | accessDenied
  | loadingScreen
  | errorRetry
  | noDataRetry
  | dashboard
deriving DecidableEq, Repr

/-- Embedding of the detail component's top-level early returns, in source
order. Both `errorRetry` and `noDataRetry` carry a Retry action wired to
`onRefresh`. -/
def renderScreen (st : DetailState) : Screen :=
  if st.hasAccess == some false && !st.checkingAccess then .accessDenied
  else if (st.loading && !st.refreshing) || st.checkingAccess then .loadingScreen
  else if st.error.isSome then .errorRetry
  else if st.pvSystemDetails.isNone then .noDataRetry
  else .dashboard

inductive ChartPeriod where
  | day
  | week
  | month
  | year
deriving DecidableEq, Repr

/-- The fourteen requests of `fetchAllData`'s batch, in source order. -/
def detailBatchRequests : List String :=
  ["getPvSystemDetails", "getPvSystemFlowData", "getPvSystemAggregatedData(today)",
   "getPvSystemAggregatedData(week)", "getPvSystemAggregatedData(month)",
   "getPvSystemAggregatedData(year)", "getPvSystemAggregatedData(co2Today)",
   "getPvSystemAggregatedData(co2Week)", "getPvSystemAggregatedData(co2Month)",
   "getPvSystemAggregatedData(co2Year)", "getPvSystemAggregatedData(total)",
   "getCurrentWeather", "getPvSystemMessages", "getPvSystemDevices"]

/-- The requests `fetchAllData` issues: none past its access guard or when
the system id is missing. -/
def fetchAllDataRequests (st : DetailState) : List String :=
  if st.hasAccess == some false then []
  else
    match st.pvSystemId with
    | none => []
    | some _ => detailBatchRequests

/-- The request `fetchHistoricalData` issues for a chart period: a
historical-series fetch for the day window, an aggregate fetch otherwise;
none past its guard. -/
def fetchHistoricalDataRequests (st : DetailState) (period : ChartPeriod) : List String :=
  match st.pvSystemId with
  | none => []
  | some _ =>
    if st.hasAccess == some false then []
    else if period = ChartPeriod.day then ["getPvSystemHistoricalData"]
    else ["getPvSystemAggregatedData(chart)"]

/-- The requests issued by the data-load `useEffect` (guards in source
order: still checking, access denied, invalid id, else `fetchAllData`). -/
def dataLoadEffectRequests (st : DetailState) : List String :=
  if st.checkingAccess then []
  else if st.hasAccess == some false then []
  else
    match st.pvSystemId with
    | none => []
    | some _ => fetchAllDataRequests st

/-- The requests issued by the chart `useEffect` (runs `fetchHistoricalData`
only when access is granted, an id is present and the check finished). -/
def chartLoadEffectRequests (st : DetailState) (period : ChartPeriod) : List String :=
  if st.hasAccess == some true && st.pvSystemId.isSome && !st.checkingAccess then
    fetchHistoricalDataRequests st period
  else []

/-! ## Spec-side definitions (from the specification's wording) -/

/-- Spec-side order predicate of C2: no inactive record before an active
one, and equal-activity neighbours in case-insensitive name order. -/
def specOrdered (a b : EnhancedPvSystem) : Prop :=
  (b.isActive = true → a.isActive = true) ∧
  (a.isActive = b.isActive → strLe (jsToLower a.name) (jsToLower b.name) = true)

instance : DecidableRel specOrdered := fun _ _ => inferInstanceAs (Decidable (_ ∧ _))

/-- A list is sorted in the sense claimed by the spec: pairwise
`specOrdered`. -/
def ActiveFirstSorted (l : List EnhancedPvSystem) : Prop :=
  l.Pairwise specOrdered

/-- Spec-side period total: the sum over all rows of the requested
channel's value, null/missing as zero. -/
def specPeriodTotal (rows : List AggrRow) (channelName : String) : ℚ :=
  (rows.map (fun row => (findChannelValue row.channels channelName).getD 0)).sum

/-- Spec-side earnings display: energy in kWh times the 0.40 dollar rate,
two decimals, dollar sign. -/
def specEarningsDisplay (energyWh : ℚ) : String :=
  "$" ++ toFixed2 (energyWh / 1000 * (40 / 100))

/-- The live telemetry payload reports connectivity. -/
def FlowReportsOnline (flowData : Option FlowDataResponse) : Prop :=
  ∃ f s, flowData = some f ∧ f.status = some s ∧ s.isOnline = true

/-! ## Concrete inputs for witnesses and counterexamples -/

def sysAlpha : PvSystemMetadata :=
  { pvSystemId := "alpha-id", name := "Alpha Roof", address := ⟨none, none, none, none⟩,
    pictureURL := none, peakPower := none, lastImport := "2024-01-01T00:00:00Z" }

def sysBeta : PvSystemMetadata :=
  { pvSystemId := "beta-id", name := "Beta Barn", address := ⟨none, none, none, none⟩,
    pictureURL := none, peakPower := none, lastImport := "2024-01-02T00:00:00Z" }

/-- A flow payload reporting connectivity (no channel data). -/
def flowOnline : FlowDataResponse := { status := some ⟨true⟩, data := none }

/-- A page item whose enrichment succeeded with an offline/absent flow. -/
def itemOffline : PageItem := ⟨sysAlpha, .ok none, .ok none⟩

/-- A page item whose enrichment succeeded with an online flow. -/
def itemOnline : PageItem := ⟨sysBeta, .ok (some flowOnline), .ok none⟩

/-- A page item whose flow fetch succeeded (online) but whose aggregate
fetch rejected: a per-item enrichment failure. -/
def itemAggrFailed : PageItem := ⟨sysBeta, .ok (some flowOnline), .error "network timeout"⟩

def noSearchFetch : String → SearchFetch := fun _ => .fail "unreachable"

def dashInit : DashState := {}

def dashAfterPage0 : DashState :=
  loadPvSystemsPage id dashInit 0 (.ok [itemOffline]) noSearchFetch

def dashAfterPage1 : DashState :=
  loadPvSystemsPage id dashAfterPage0 1 (.ok [itemOnline]) noSearchFetch

/-- An already-enriched record used to populate degraded-mode states. -/
def alphaEnhanced : EnhancedPvSystem :=
  { id := "alpha-id", name := "Alpha Roof", address := "12 Solar Way", status := .online,
    power := "3.0 kW", daily := "12.0 kWh", lastUpdated := "just now", pictureURL := none,
    peakPower := none, isActive := true }

/-- Degraded mode: directory cache empty, 21 enriched records loaded. -/
def dashFallback : DashState :=
  { pvSystems := List.replicate 21 alphaEnhanced,
    filteredSystems := List.replicate 21 alphaEnhanced }

/-- An enriched record none of whose searchable fields contains a space. -/
def alphaPlain : EnhancedPvSystem :=
  { id := "a1", name := "Alpha", address := "x", status := .online, power := "3.0 kW",
    daily := "12.0 kWh", lastUpdated := "just now", pictureURL := none, peakPower := none,
    isActive := true }

/-- Degraded mode with a single loaded record. -/
def dashFallbackSmall : DashState :=
  { pvSystems := [alphaPlain], filteredSystems := [alphaPlain] }

/-- A state whose directory cache is populated. -/
def dashWithCache : DashState :=
  { allSystemsBasicInfo := [⟨"alpha-id", "Alpha Roof", "12 Solar Way", none⟩] }

def dashBusy : DashState := { dashInit with isLoadingMore := true }

def dashNoMore : DashState := { dashInit with hasMorePages := false, loading := false }

def dashSearching : DashState := { dashInit with searchQuery := "barn" }

def mkEnergyRow (v : Option ℚ) : AggrRow :=
  { logDateTime := "2024-01-01", channels := some [{ channelName := "EnergyProductionTotal", value := v }] }

/-- The spec's weekly example: seven daily rows, one with a null value. -/
def rows7 : List AggrRow :=
  [mkEnergyRow (some 1000), mkEnergyRow (some 1200), mkEnergyRow (some 900), mkEnergyRow none,
   mkEnergyRow (some 1100), mkEnergyRow (some 950), mkEnergyRow (some 1050)]

/-- A detail state right after a successful access check. -/
def detailReady (pid : String) : DetailState :=
  { hasAccess := some true, checkingAccess := false, pvSystemId := some pid }

/-- A detail state after the pre-check denied access. -/
def detailDenied : DetailState :=
  { hasAccess := some false, checkingAccess := false, pvSystemId := some "pv-1", loading := false }

/-- A settled batch in which every fetch rejected. -/
def allFailedFetches : DetailFetches :=
  { details := .error "boom", flow := .error "boom", aggrToday := .error "boom",
    aggrWeek := .error "boom", aggrMonth := .error "boom", aggrYear := .error "boom",
    aggrCo2Today := .error "boom", aggrCo2Week := .error "boom", aggrCo2Month := .error "boom",
    aggrCo2Year := .error "boom", aggrTotal := .error "boom", weather := .error "boom",
    msgs := .error "boom", devs := .error "boom" }

/-- A settled batch in which only the essential details fetch succeeded. -/
def onlyDetailsFetches : DetailFetches :=
  { allFailedFetches with details := .ok sysAlpha }

/-- A settled batch with details and the weekly aggregate succeeding. -/
def weekOkFetches : DetailFetches :=
  { allFailedFetches with details := .ok sysAlpha, aggrWeek := .ok ⟨rows7⟩ }

/-! ## Helper lemmas -/

theorem charListLe_total : ∀ a b, charListLe a b = true ∨ charListLe b a = true := by
  intro a
  induction a with
  | nil => intro b; left; rfl
  | cons x xs ih =>
    intro b
    cases b with
    | nil => right; rfl
    | cons y ys =>
      by_cases h1 : x.toNat < y.toNat
      · left; simp [charListLe, h1]
      · by_cases h2 : y.toNat < x.toNat
        · right; simp [charListLe, h2]
        · rcases ih ys with h | h
          · left; simp [charListLe, h1, h2, h]
          · right; simp [charListLe, h1, h2, h]

theorem charListLe_trans :
    ∀ a b c, charListLe a b = true → charListLe b c = true → charListLe a c = true := by
  intro a
  induction a with
  | nil => intro b c _ _; rfl
  | cons x xs ih =>
    intro b c hab hbc
    cases b with
    | nil => simp [charListLe] at hab
    | cons y ys =>
      cases c with
      | nil => simp [charListLe] at hbc
      | cons z zs =>
        simp only [charListLe] at hab hbc ⊢
        split_ifs at hab hbc ⊢ with h1 h2 h3 h4 h5 h6 <;>
          first
          | rfl
          | omega
          | (exact ih ys zs hab hbc)


theorem strLe_total (a b : String) : strLe a b = true ∨ strLe b a = true :=
  charListLe_total a.toList b.toList

theorem strLe_trans {a b c : String} (hab : strLe a b = true) (hbc : strLe b c = true) :
    strLe a c = true :=
  charListLe_trans a.toList b.toList c.toList hab hbc

theorem sysLER_total : ∀ a b, sysLER a b ∨ sysLER b a := by
  intro a b
  unfold sysLER sysLE
  cases ha : a.isActive <;> cases hb : b.isActive <;> simp [ha, hb]
  · exact strLe_total _ _
  · exact strLe_total _ _

theorem sysLER_trans : ∀ a b c, sysLER a b → sysLER b c → sysLER a c := by
  intro a b c hab hbc
  unfold sysLER sysLE at *
  cases ha : a.isActive <;> cases hb : b.isActive <;> cases hc : c.isActive <;>
    simp [ha, hb, hc] at hab hbc ⊢ <;>
    exact strLe_trans hab hbc

theorem sysLER_specOrdered {a b : EnhancedPvSystem} (h : sysLER a b) : specOrdered a b := by
  unfold sysLER sysLE at h
  unfold specOrdered
  cases ha : a.isActive <;> cases hb : b.isActive <;> simp [ha, hb] at h ⊢ <;> try exact h

/-- The sorted page satisfies the spec's order everywhere. -/
theorem sortSystems_activeFirstSorted (l : List EnhancedPvSystem) :
    ActiveFirstSorted (sortSystems l) := by
  have hs : (sortSystems l).Pairwise sysLER :=
    @List.sorted_insertionSort _ sysLER _ ⟨sysLER_total⟩ ⟨sysLER_trans⟩ l
  exact hs.imp sysLER_specOrdered

theorem mem_sortSystems {x : EnhancedPvSystem} {l : List EnhancedPvSystem} :
    x ∈ sortSystems l ↔ x ∈ l :=
  List.mem_insertionSort _

theorem containsSub_emptyQuery (s : String) : containsSub s "" = true := by
  unfold containsSub
  refine List.any_eq_true.mpr ⟨0, ?_, ?_⟩
  · exact List.mem_range.mpr (Nat.succ_pos _)
  · have h : ∀ l : List Char, List.isPrefixOf [] l = true := fun l => by cases l <;> rfl
    exact h _

theorem enhancedMatchesQuery_empty (s : EnhancedPvSystem) :
    enhancedMatchesQuery (jsToLower "") s = true := by
  have h : jsToLower "" = "" := rfl
  rw [h]
  unfold enhancedMatchesQuery
  simp [containsSub_emptyQuery]

theorem foldl_add_getD (channelName : String) (l : List AggrRow) (init : ℚ) :
    l.foldl (fun total item => total + ((findChannelValue item.channels channelName).getD 0)) init
      = init + specPeriodTotal l channelName := by
  induction l generalizing init with
  | nil => simp [specPeriodTotal]
  | cons h t ih => simp [specPeriodTotal, List.foldl, ih, add_assoc]

/-- The fold of the source equals the spec-side sum. -/
theorem sumChannelTotal_eq_spec (rows : List AggrRow) (channelName : String) :
    sumChannelTotal rows channelName = specPeriodTotal rows channelName := by
  unfold sumChannelTotal
  simpa using foldl_add_getD channelName rows 0

theorem pad2_length {n : ℕ} (h : n < 100) : (pad2 n).length = 2 := by
  revert h
  revert n
  decide

theorem systemIsOnline_iff (flowData : Option FlowDataResponse) :
    systemIsOnline flowData = true ↔ FlowReportsOnline flowData := by
  unfold systemIsOnline FlowReportsOnline
  cases flowData with
  | none => simp
  | some f =>
    cases hs : f.status with
    | none => simp [hs]
    | some s => simp [hs]

theorem determineStatus_online_iff (flowData : Option FlowDataResponse) :
    determineStatus flowData = Status.online ↔ FlowReportsOnline flowData := by
  unfold determineStatus FlowReportsOnline
  cases flowData with
  | none => simp
  | some f =>
    cases hs : f.status with
    | none => simp [hs]
    | some s => cases hb : s.isOnline <;> simp [hs, hb]

/-- With a non-empty fetched page, the stored list is the sorted page
(page 0) or the previous list with the sorted page appended. -/
theorem loadPage_pvSystems (fmtLast : String → String) (st : DashState) (page : ℕ)
    (items : List PageItem) (fetch : String → SearchFetch) (h : items ≠ []) :
    (loadPvSystemsPage fmtLast st page (.ok items) fetch).pvSystems
      = (if page = 0 then sortSystems (items.map (enrichPageItem fmtLast))
         else st.pvSystems ++ sortSystems (items.map (enrichPageItem fmtLast))) := by
  rcases items with _ | ⟨a, t⟩
  · exact absurd rfl h
  · simp [loadPvSystemsPage]

/-- C1: with page size 10, a fetched page shorter than 10 items (including
an empty page) turns `hasMorePages` off, a full page of exactly 10 turns it
on, and `handleLoadMore` is a no-op while a load is in flight, when no more
pages exist, or when the search query is non-blank. -/
theorem claim_C1 (fmtLast : String → String) (st : DashState) (page : ℕ)
    (items : List PageItem) (fetched : Except String (List PageItem))
    (fetch : String → SearchFetch) :
    (loadPvSystemsPage fmtLast st page (.ok items) fetch).hasMorePages
        = (items.length == SYSTEMS_PER_PAGE)
    ∧ (items.length < SYSTEMS_PER_PAGE →
        (loadPvSystemsPage fmtLast st page (.ok items) fetch).hasMorePages = false)
    ∧ (items.length = SYSTEMS_PER_PAGE →
        (loadPvSystemsPage fmtLast st page (.ok items) fetch).hasMorePages = true)
    ∧ (st.isLoadingMore = true → handleLoadMore fmtLast st fetched fetch = st)
    ∧ (st.hasMorePages = false → handleLoadMore fmtLast st fetched fetch = st)
    ∧ (jsBlank st.searchQuery = false → handleLoadMore fmtLast st fetched fetch = st) := by
  have h1 : (loadPvSystemsPage fmtLast st page (.ok items) fetch).hasMorePages
      = (items.length == SYSTEMS_PER_PAGE) := by
    rcases items with _ | ⟨a, t⟩ <;> simp [loadPvSystemsPage, SYSTEMS_PER_PAGE]
  refine ⟨h1, ?_, ?_, ?_, ?_, ?_⟩
  · intro h
    rw [h1]
    exact beq_eq_false_iff_ne.mpr (Nat.ne_of_lt h)
  · intro h
    rw [h1, h]
    exact beq_self_eq_true _
  · intro h
    simp [handleLoadMore, h]
  · intro h
    simp [handleLoadMore, h]
  · intro h
    simp [handleLoadMore, h]

theorem claim_C1_witness :
    (loadPvSystemsPage id dashInit 0 (.ok [itemOffline]) noSearchFetch).hasMorePages = false
    ∧ handleLoadMore id dashBusy (.ok []) noSearchFetch = dashBusy
    ∧ handleLoadMore id dashNoMore (.ok []) noSearchFetch = dashNoMore
    ∧ handleLoadMore id dashSearching (.ok []) noSearchFetch = dashSearching :=
  ⟨(claim_C1 id dashInit 0 [itemOffline] (.ok []) noSearchFetch).2.1 (by decide),
   (claim_C1 id dashBusy 0 [] (.ok []) noSearchFetch).2.2.2.1 rfl,
   (claim_C1 id dashNoMore 0 [] (.ok []) noSearchFetch).2.2.2.2.1 rfl,
   (claim_C1 id dashSearching 0 [] (.ok []) noSearchFetch).2.2.2.2.2 (by decide)⟩

/-- C2 counterexample: after an inactive-only page 0 and an active-only
page 1, the accumulated list has an active record after an inactive one, so
the displayed accumulated list is not globally sorted as claimed. -/
theorem claim_C2_counterexample : ¬ ActiveFirstSorted dashAfterPage1.pvSystems := by
  unfold ActiveFirstSorted
  decide

/-- C2 (amended): each fetched page is sorted (active records first,
case-insensitive name order within equal activity) before display; page 0
replaces the list with the sorted page, while each later page appends its
sorted page as a block, so only the per-page blocks — not the accumulated
list — are guaranteed sorted. -/
theorem claim_C2_amended (fmtLast : String → String) (st : DashState)
    (items : List PageItem) (fetch : String → SearchFetch) (h : items ≠ []) :
    ActiveFirstSorted ((loadPvSystemsPage fmtLast st 0 (.ok items) fetch).pvSystems)
    ∧ ∀ page : ℕ, 0 < page →
        ∃ block, ActiveFirstSorted block
          ∧ (loadPvSystemsPage fmtLast st page (.ok items) fetch).pvSystems
              = st.pvSystems ++ block := by
  constructor
  · rw [loadPage_pvSystems fmtLast st 0 items fetch h, if_pos rfl]
    exact sortSystems_activeFirstSorted _
  · intro page hp
    refine ⟨sortSystems (items.map (enrichPageItem fmtLast)),
      sortSystems_activeFirstSorted _, ?_⟩
    rw [loadPage_pvSystems fmtLast st page items fetch h, if_neg (by omega)]

theorem claim_C2_witness :
    ActiveFirstSorted ((loadPvSystemsPage id dashInit 0 (.ok [itemOffline]) noSearchFetch).pvSystems)
    ∧ ∃ block, ActiveFirstSorted block
        ∧ (loadPvSystemsPage id dashInit 1 (.ok [itemOffline]) noSearchFetch).pvSystems
            = dashInit.pvSystems ++ block :=
  ⟨(claim_C2_amended id dashInit [itemOffline] noSearchFetch (List.cons_ne_nil _ _)).1,
   (claim_C2_amended id dashInit [itemOffline] noSearchFetch (List.cons_ne_nil _ _)).2 1
     (by omega)⟩

/-- C3 counterexample: a per-item enrichment failure in page loading whose
flow fetch succeeded (online) before the aggregate fetch rejected yields a
record whose status is online, not the claimed offline. -/
theorem claim_C3_counterexample :
    (enrichPageItem id itemAggrFailed).status = Status.online
    ∧ (enrichPageItem id itemAggrFailed).status ≠ Status.offline := by
  decide

/-- C3 (amended): a failing item is never dropped. In search-result loading
any per-item failure yields the offline record with power 0 kW and daily
0 kWh. In page loading, a flow-fetch failure yields exactly that degraded
record, but when only the today-aggregate fetch fails the record keeps the
status and power derived from the already-fetched flow data and only daily
degrades to 0 kWh. -/
theorem claim_C3_amended (fmtLast : String → String) :
    (∀ system msg aggrRes,
        (enrichPageItem fmtLast ⟨system, .error msg, aggrRes⟩).status = Status.offline
        ∧ (enrichPageItem fmtLast ⟨system, .error msg, aggrRes⟩).power = "0 kW"
        ∧ (enrichPageItem fmtLast ⟨system, .error msg, aggrRes⟩).daily = "0 kWh")
    ∧ (∀ system flow msg,
        (enrichPageItem fmtLast ⟨system, .ok flow, .error msg⟩).daily = "0 kWh"
        ∧ (enrichPageItem fmtLast ⟨system, .ok flow, .error msg⟩).status = determineStatus flow
        ∧ (enrichPageItem fmtLast ⟨system, .ok flow, .error msg⟩).power = extractPower flow)
    ∧ (∀ st page items fetch, ∀ it ∈ items,
        enrichPageItem fmtLast it
          ∈ (loadPvSystemsPage fmtLast st page (.ok items) fetch).pvSystems)
    ∧ (∀ pvSystems fetch basicSystem msg,
        pvSystems.find? (fun sys => sys.id == basicSystem.id) = none →
        fetch basicSystem.id = SearchFetch.fail msg →
        (enrichSearchItem fmtLast pvSystems fetch basicSystem).status = Status.offline
        ∧ (enrichSearchItem fmtLast pvSystems fetch basicSystem).power = "0 kW"
        ∧ (enrichSearchItem fmtLast pvSystems fetch basicSystem).daily = "0 kWh")
    ∧ (∀ st query fetch,
        ∀ b ∈ (st.allSystemsBasicInfo.filter (basicMatchesQuery (jsToLower query))).take 20,
        jsBlank query = false →
        enrichSearchItem fmtLast st.pvSystems fetch b
          ∈ applySearchFilter fmtLast st query fetch) := by
  refine ⟨?_, ?_, ?_, ?_, ?_⟩
  · exact fun system msg aggrRes => ⟨rfl, rfl, rfl⟩
  · exact fun system flow msg => ⟨rfl, rfl, rfl⟩
  · intro st page items fetch it hit
    have hne : items ≠ [] := by
      rintro rfl
      simp at hit
    rw [loadPage_pvSystems fmtLast st page items fetch hne]
    have hm : enrichPageItem fmtLast it ∈ sortSystems (items.map (enrichPageItem fmtLast)) :=
      mem_sortSystems.mpr (List.mem_map_of_mem _ hit)
    by_cases hp : page = 0
    · rw [if_pos hp]; exact hm
    · rw [if_neg hp]; exact List.mem_append_right _ hm
  · intro pvSystems fetch basicSystem msg hfind hfetch
    simp only [enrichSearchItem, hfind, hfetch]
    exact ⟨rfl, rfl, rfl⟩
  · intro st query fetch b hb hq
    simp only [applySearchFilter, hq, Bool.false_eq_true, if_false]
    have hne : (st.allSystemsBasicInfo.filter (basicMatchesQuery (jsToLower query))).isEmpty
        = false := by
      cases hm : st.allSystemsBasicInfo.filter (basicMatchesQuery (jsToLower query)) with
      | nil => rw [hm] at hb; simp at hb
      | cons x xs => rfl
    simp only [hne, Bool.false_eq_true, if_false]
    exact List.mem_map_of_mem _ hb

theorem claim_C3_witness :
    ((enrichPageItem id ⟨sysAlpha, .error "boom", .ok none⟩).status = Status.offline
      ∧ (enrichPageItem id ⟨sysAlpha, .error "boom", .ok none⟩).power = "0 kW"
      ∧ (enrichPageItem id ⟨sysAlpha, .error "boom", .ok none⟩).daily = "0 kWh")
    ∧ (enrichPageItem id itemAggrFailed).daily = "0 kWh"
    ∧ enrichPageItem id itemOffline
        ∈ (loadPvSystemsPage id dashInit 0 (.ok [itemOffline]) noSearchFetch).pvSystems
    ∧ ((enrichSearchItem id [] noSearchFetch ⟨"b1", "Barn B", "addr", none⟩).status = Status.offline
      ∧ (enrichSearchItem id [] noSearchFetch ⟨"b1", "Barn B", "addr", none⟩).power = "0 kW"
      ∧ (enrichSearchItem id [] noSearchFetch ⟨"b1", "Barn B", "addr", none⟩).daily = "0 kWh")
    ∧ enrichSearchItem id dashWithCache.pvSystems noSearchFetch
        ⟨"alpha-id", "Alpha Roof", "12 Solar Way", none⟩
        ∈ applySearchFilter id dashWithCache "alpha" noSearchFetch :=
  ⟨(claim_C3_amended id).1 sysAlpha "boom" (.ok none),
   ((claim_C3_amended id).2.1 sysBeta (some flowOnline) "network timeout").1,
   (claim_C3_amended id).2.2.1 dashInit 0 [itemOffline] noSearchFetch itemOffline (by simp),
   (claim_C3_amended id).2.2.2.1 [] noSearchFetch ⟨"b1", "Barn B", "addr", none⟩ "unreachable"
     rfl rfl,
   (claim_C3_amended id).2.2.2.2 dashWithCache "alpha" noSearchFetch
     ⟨"alpha-id", "Alpha Roof", "12 Solar Way", none⟩ (by decide) (by decide)⟩

/-- C4 counterexample: in degraded fallback mode (directory cache empty,
21 enriched records loaded) the query "a" matches all 21 loaded records and
all 21 are displayed — the 20-record cap does not hold there. -/
theorem claim_C4_counterexample :
    20 < (searchEffect id dashFallback "a" noSearchFetch).length := by
  decide

/-- C4 (amended): with the directory cache populated, any non-blank query
yields at most 20 displayed records; the degraded fallback mode applies no
cap (see the counterexample). -/
theorem claim_C4_amended (fmtLast : String → String) (st : DashState) (query : String)
    (fetch : String → SearchFetch) (hq : jsBlank query = false)
    (hc : st.allSystemsBasicInfo ≠ []) :
    (applySearchFilter fmtLast st query fetch).length ≤ 20
    ∧ (searchEffect fmtLast st query fetch).length ≤ 20 := by
  have h1 : (applySearchFilter fmtLast st query fetch).length ≤ 20 := by
    unfold applySearchFilter
    simp only [hq, Bool.false_eq_true, if_false]
    by_cases hm :
        (st.allSystemsBasicInfo.filter (basicMatchesQuery (jsToLower query))).isEmpty = true
    · simp [hm]
    · rw [Bool.not_eq_true] at hm
      simp only [hm, Bool.false_eq_true, if_false]
      rw [List.length_map]
      exact List.length_take_le _ _
  refine ⟨h1, ?_⟩
  unfold searchEffect
  rw [if_pos (List.length_pos.mpr hc)]
  exact h1

theorem claim_C4_witness :
    (applySearchFilter id dashWithCache "alpha" noSearchFetch).length ≤ 20
    ∧ (searchEffect id dashWithCache "alpha" noSearchFetch).length ≤ 20 :=
  claim_C4_amended id dashWithCache "alpha" noSearchFetch (by decide) (by decide)

/-- C5 counterexample: in degraded fallback mode a whitespace-only query is
not trimmed but matched literally, so it filters out every record whose
fields contain no space instead of restoring the paginated list. -/
theorem claim_C5_counterexample :
    searchEffect id dashFallbackSmall " " noSearchFetch ≠ dashFallbackSmall.pvSystems := by
  decide

/-- C5 (amended): a blank (empty or whitespace-only) query restores exactly
the held paginated list whenever the directory cache is populated; with the
cache empty, only the genuinely empty query restores it (whitespace-only
queries are matched literally there). -/
theorem claim_C5_amended (fmtLast : String → String) (st : DashState) (query : String)
    (fetch : String → SearchFetch) (hq : jsBlank query = true)
    (hc : st.allSystemsBasicInfo ≠ [] ∨ (query = "" ∧ st.pvSystems ≠ [])) :
    searchEffect fmtLast st query fetch = st.pvSystems := by
  unfold searchEffect
  by_cases hcache : st.allSystemsBasicInfo.length > 0
  · rw [if_pos hcache]
    unfold applySearchFilter
    simp [hq]
  · rw [if_neg hcache]
    rcases hc with hc | ⟨hq0, hpv⟩
    · exact absurd (List.length_pos.mpr hc) hcache
    · rw [if_pos (List.length_pos.mpr hpv)]
      subst hq0
      exact List.filter_eq_self.mpr (fun a _ => enhancedMatchesQuery_empty a)

theorem claim_C5_witness :
    searchEffect id dashWithCache "  " noSearchFetch = dashWithCache.pvSystems :=
  claim_C5_amended id dashWithCache "  " noSearchFetch (by decide) (Or.inl (by decide))

theorem latestErrors_pos_iff (messages : List SystemMessage) :
    0 < (latestErrorMessages messages).length ↔ ∃ m ∈ messages, m.stateSeverity = "Error" := by
  unfold latestErrorMessages
  simp [List.length_pos_iff_exists_mem, List.mem_filter]

theorem systemStatus_offline_iff (flowData : Option FlowDataResponse)
    (messages : List SystemMessage) :
    systemStatus flowData messages = Status.offline ↔ ¬ FlowReportsOnline flowData := by
  rw [← systemIsOnline_iff]
  cases hb : systemIsOnline flowData
  · simp [systemStatus, hb]
  · simp only [systemStatus, hb, Bool.not_true, Bool.false_eq_true, if_false]
    by_cases hl : 0 < (latestErrorMessages messages).length
    · simp [hl]
    · simp [hl]

theorem systemStatus_warning_iff (flowData : Option FlowDataResponse)
    (messages : List SystemMessage) :
    systemStatus flowData messages = Status.warning ↔
      FlowReportsOnline flowData ∧ ∃ m ∈ messages, m.stateSeverity = "Error" := by
  rw [← systemIsOnline_iff, ← latestErrors_pos_iff]
  cases hb : systemIsOnline flowData
  · simp [systemStatus, hb]
  · by_cases hl : 0 < (latestErrorMessages messages).length <;> simp [systemStatus, hb, hl]

theorem systemStatus_online_iff (flowData : Option FlowDataResponse)
    (messages : List SystemMessage) :
    systemStatus flowData messages = Status.online ↔
      FlowReportsOnline flowData ∧ ¬ ∃ m ∈ messages, m.stateSeverity = "Error" := by
  rw [← systemIsOnline_iff, ← latestErrors_pos_iff]
  cases hb : systemIsOnline flowData
  · simp [systemStatus, hb]
  · by_cases hl : 0 < (latestErrorMessages messages).length <;> simp [systemStatus, hb, hl]

/-- C6: the list view's status is online exactly when the flow fetch
succeeded with a payload reporting connectivity — any fetch failure,
missing status or disconnection yields offline, and warning is never
assigned there. The detail view is offline when not online, warning when
online with an Error-severity message present, and online otherwise. -/
theorem claim_C6 :
    (∀ flowData, determineStatus flowData = Status.online ↔ FlowReportsOnline flowData)
    ∧ (∀ flowData, determineStatus flowData ≠ Status.warning)
    ∧ (∀ (fmtLast : String → String) (it : PageItem),
        (enrichPageItem fmtLast it).status = Status.online ↔
          ∃ flow, it.flowRes = .ok flow ∧ FlowReportsOnline flow)
    ∧ (∀ flowData messages,
        systemStatus flowData messages = Status.offline ↔ ¬ FlowReportsOnline flowData)
    ∧ (∀ flowData messages,
        systemStatus flowData messages = Status.warning ↔
          FlowReportsOnline flowData ∧ ∃ m ∈ messages, m.stateSeverity = "Error")
    ∧ (∀ flowData messages,
        systemStatus flowData messages = Status.online ↔
          FlowReportsOnline flowData ∧ ¬ ∃ m ∈ messages, m.stateSeverity = "Error") := by
  refine ⟨determineStatus_online_iff, ?_, ?_, systemStatus_offline_iff,
    systemStatus_warning_iff, systemStatus_online_iff⟩
  · intro flowData
    rcases flowData with _ | f
    · simp [determineStatus]
    · rcases hf : f.status with _ | s
      · simp [determineStatus, hf]
      · cases hb : s.isOnline <;> simp [determineStatus, hf, hb]
  · intro fmtLast it
    rcases it with ⟨system, flowRes, aggrRes⟩
    cases flowRes with
    | error e =>
      simp [enrichPageItem, formatPvSystemData]
      intro h
      rw [determineStatus_online_iff] at h
      rcases h with ⟨f, s, h, -⟩
      cases h
    | ok flow =>
      cases aggrRes with
      | error e =>
        simp [enrichPageItem, formatPvSystemData, determineStatus_online_iff]
      | ok aggr =>
        simp [enrichPageItem, formatPvSystemData, determineStatus_online_iff]

theorem claim_C6_witness :
    determineStatus (some flowOnline) = Status.online
    ∧ determineStatus none ≠ Status.warning
    ∧ systemStatus none [] = Status.offline :=
  ⟨(claim_C6.1 (some flowOnline)).mpr ⟨flowOnline, ⟨true⟩, rfl, rfl, rfl⟩,
   claim_C6.2.1 none,
   (claim_C6.2.2.2.1 none []).mpr (by rintro ⟨f, s, h, -⟩; cases h)⟩

/-- When the essential details fetch rejected, `fetchAllData` only records
the screen-level error; every metric keeps its previous value. -/
theorem fetchAllData_details_error (st : DetailState) (r : DetailFetches) (pid msg : String)
    (hAcc : st.hasAccess ≠ some false) (hid : st.pvSystemId = some pid)
    (hd : r.details = .error msg) :
    fetchAllData st r
      = { st with error := some ("Failed to load system data: " ++ msg),
                  loading := false, refreshing := false } := by
  unfold fetchAllData
  rw [if_neg hAcc, hid, hd]

/-- When the essential details fetch resolved, `fetchAllData` settles every
field from its own fetch result. -/
theorem fetchAllData_details_ok (st : DetailState) (r : DetailFetches) (pid : String)
    (details : PvSystemMetadata) (hAcc : st.hasAccess ≠ some false)
    (hid : st.pvSystemId = some pid) (hd : r.details = .ok details) :
    fetchAllData st r
      = { st with
          pvSystemDetails := some details
          flowData := (match r.flow with | .ok v => v | .error _ => st.flowData)
          aggregatedDataToday :=
            (match r.aggrToday with | .ok v => some v | .error _ => st.aggregatedDataToday)
          weeklyEnergyProduction :=
            (match r.aggrWeek with
              | .ok a => some (sumChannelTotal a.data "EnergyProductionTotal")
              | .error _ => st.weeklyEnergyProduction)
          monthlyEnergyProduction :=
            (match r.aggrMonth with
              | .ok a => some (sumChannelTotal a.data "EnergyProductionTotal")
              | .error _ => st.monthlyEnergyProduction)
          yearlyEnergyProduction :=
            (match r.aggrYear with
              | .ok a => some (sumChannelTotal a.data "EnergyProductionTotal")
              | .error _ => st.yearlyEnergyProduction)
          aggregatedDataTotal :=
            (match r.aggrTotal with | .ok v => some v | .error _ => st.aggregatedDataTotal)
          weatherData := (match r.weather with | .ok v => some v | .error _ => st.weatherData)
          messages :=
            (match r.msgs with
              | .ok (some list) => list
              | .ok none => []
              | .error _ => [])
          devices := (match r.devs with | .ok v => v.getD [] | .error _ => st.devices)
          dailyCo2Savings :=
            (match r.aggrCo2Today with
              | .ok a => findChannelValue (a.data.head?.bind (·.channels)) "SavingsCO2"
              | .error _ => st.dailyCo2Savings)
          weeklyCo2Savings :=
            (match r.aggrCo2Week with
              | .ok a => some (sumChannelTotal a.data "SavingsCO2")
              | .error _ => st.weeklyCo2Savings)
          monthlyCo2Savings :=
            (match r.aggrCo2Month with
              | .ok a => some (sumChannelTotal a.data "SavingsCO2")
              | .error _ => st.monthlyCo2Savings)
          yearlyCo2Savings :=
            (match r.aggrCo2Year with
              | .ok a => some (sumChannelTotal a.data "SavingsCO2")
              | .error _ => st.yearlyCo2Savings)
          error := none
          loading := false
          refreshing := false } := by
  unfold fetchAllData
  rw [if_neg hAcc, hid, hd]

/-- C7: the batch settles all fourteen fetches independently. A rejected
essential details fetch is fatal: only the screen-level error is recorded
(no metric is touched) and the component renders the retryable error
screen. With details resolved, each non-essential fetch failure leaves only
its own metric in its previous (initially unavailable) state — messages
reset to empty — while every other resolved fetch still lands, and the
dashboard renders. -/
theorem claim_C7 (st : DetailState) (r : DetailFetches) (pid msg : String)
    (hAcc : st.hasAccess ≠ some false) (hid : st.pvSystemId = some pid) :
    (r.details = .error msg →
        fetchAllData st r
          = { st with error := some ("Failed to load system data: " ++ msg),
                      loading := false, refreshing := false })
    ∧ (r.details = .error msg → st.checkingAccess = false →
        renderScreen (fetchAllData st r) = Screen.errorRetry)
    ∧ (∀ details, r.details = .ok details →
        (fetchAllData st r).error = none
        ∧ (fetchAllData st r).pvSystemDetails = some details
        ∧ (∀ m, r.flow = .error m → (fetchAllData st r).flowData = st.flowData)
        ∧ (∀ v, r.flow = .ok v → (fetchAllData st r).flowData = v)
        ∧ (∀ m, r.aggrToday = .error m →
            (fetchAllData st r).aggregatedDataToday = st.aggregatedDataToday)
        ∧ (∀ a, r.aggrToday = .ok a → (fetchAllData st r).aggregatedDataToday = some a)
        ∧ (∀ m, r.aggrWeek = .error m →
            (fetchAllData st r).weeklyEnergyProduction = st.weeklyEnergyProduction)
        ∧ (∀ m, r.aggrMonth = .error m →
            (fetchAllData st r).monthlyEnergyProduction = st.monthlyEnergyProduction)
        ∧ (∀ m, r.aggrYear = .error m →
            (fetchAllData st r).yearlyEnergyProduction = st.yearlyEnergyProduction)
        ∧ (∀ m, r.aggrTotal = .error m →
            (fetchAllData st r).aggregatedDataTotal = st.aggregatedDataTotal)
        ∧ (∀ w, r.weather = .ok w → (fetchAllData st r).weatherData = some w)
        ∧ (∀ m, r.weather = .error m → (fetchAllData st r).weatherData = st.weatherData)
        ∧ (∀ m, r.msgs = .error m → (fetchAllData st r).messages = [])
        ∧ (∀ list, r.msgs = .ok (some list) → (fetchAllData st r).messages = list)
        ∧ (∀ m, r.devs = .error m → (fetchAllData st r).devices = st.devices)
        ∧ (∀ m, r.aggrCo2Today = .error m →
            (fetchAllData st r).dailyCo2Savings = st.dailyCo2Savings)
        ∧ (∀ m, r.aggrCo2Week = .error m →
            (fetchAllData st r).weeklyCo2Savings = st.weeklyCo2Savings)
        ∧ (∀ m, r.aggrCo2Month = .error m →
            (fetchAllData st r).monthlyCo2Savings = st.monthlyCo2Savings)
        ∧ (∀ m, r.aggrCo2Year = .error m →
            (fetchAllData st r).yearlyCo2Savings = st.yearlyCo2Savings)
        ∧ (st.checkingAccess = false → renderScreen (fetchAllData st r) = Screen.dashboard)) := by
  have hbeq : (st.hasAccess == some false) = false := beq_eq_false_iff_ne.mpr hAcc
  refine ⟨?_, ?_, ?_⟩
  · intro hd
    exact fetchAllData_details_error st r pid msg hAcc hid hd
  · intro hd hchk
    rw [fetchAllData_details_error st r pid msg hAcc hid hd]
    simp [renderScreen, hbeq, hchk]
  · intro details hd
    rw [fetchAllData_details_ok st r pid details hAcc hid hd]
    refine ⟨rfl, rfl, ?_, ?_, ?_, ?_, ?_, ?_, ?_, ?_, ?_, ?_, ?_, ?_, ?_, ?_, ?_, ?_, ?_, ?_⟩
    · intro m hm; rw [hm]
    · intro v hv; rw [hv]
    · intro m hm; rw [hm]
    · intro a ha; rw [ha]
    · intro m hm; rw [hm]
    · intro m hm; rw [hm]
    · intro m hm; rw [hm]
    · intro m hm; rw [hm]
    · intro w hw; rw [hw]
    · intro m hm; rw [hm]
    · intro m hm; rw [hm]
    · intro list hl; rw [hl]
    · intro m hm; rw [hm]
    · intro m hm; rw [hm]
    · intro m hm; rw [hm]
    · intro m hm; rw [hm]
    · intro m hm; rw [hm]
    · intro hchk
      simp [renderScreen, hbeq, hchk]

theorem claim_C7_witness :
    fetchAllData (detailReady "pv-1") allFailedFetches
      = { detailReady "pv-1" with
          error := some ("Failed to load system data: " ++ "boom"),
          loading := false, refreshing := false }
    ∧ renderScreen (fetchAllData (detailReady "pv-1") allFailedFetches) = Screen.errorRetry
    ∧ (fetchAllData (detailReady "pv-1") onlyDetailsFetches).error = none
    ∧ (fetchAllData (detailReady "pv-1") onlyDetailsFetches).flowData
        = (detailReady "pv-1").flowData
    ∧ (fetchAllData (detailReady "pv-1") onlyDetailsFetches).messages = []
    ∧ renderScreen (fetchAllData (detailReady "pv-1") onlyDetailsFetches) = Screen.dashboard :=
  ⟨(claim_C7 (detailReady "pv-1") allFailedFetches "pv-1" "boom" (by decide) rfl).1 rfl,
   (claim_C7 (detailReady "pv-1") allFailedFetches "pv-1" "boom" (by decide) rfl).2.1 rfl rfl,
   ((claim_C7 (detailReady "pv-1") onlyDetailsFetches "pv-1" "boom" (by decide) rfl).2.2
      sysAlpha rfl).1,
   ((claim_C7 (detailReady "pv-1") onlyDetailsFetches "pv-1" "boom" (by decide) rfl).2.2
      sysAlpha rfl).2.2.1 "boom" rfl,
   ((claim_C7 (detailReady "pv-1") onlyDetailsFetches "pv-1" "boom" (by decide) rfl).2.2
      sysAlpha rfl).2.2.2.2.2.2.2.2.2.2.2.2.1 "boom" rfl,
   ((claim_C7 (detailReady "pv-1") onlyDetailsFetches "pv-1" "boom" (by decide) rfl).2.2
      sysAlpha rfl).2.2.2.2.2.2.2.2.2.2.2.2.2.2.2.2.2.2.2 rfl⟩

/-- C8: every derived period total stored by `fetchAllData` equals the sum
over all returned rows of the requested channel's value, a missing channel
or null value contributing zero; on the spec's 7-row weekly example the
total is 6200 Wh and it renders as "6.2 kWh". -/
theorem claim_C8 (st : DetailState) (r : DetailFetches) (pid : String)
    (details : PvSystemMetadata) (hAcc : st.hasAccess ≠ some false)
    (hid : st.pvSystemId = some pid) (hd : r.details = .ok details) :
    (∀ rows channelName, sumChannelTotal rows channelName = specPeriodTotal rows channelName)
    ∧ (∀ a, r.aggrWeek = .ok a → (fetchAllData st r).weeklyEnergyProduction
        = some (specPeriodTotal a.data "EnergyProductionTotal"))
    ∧ (∀ a, r.aggrMonth = .ok a → (fetchAllData st r).monthlyEnergyProduction
        = some (specPeriodTotal a.data "EnergyProductionTotal"))
    ∧ (∀ a, r.aggrYear = .ok a → (fetchAllData st r).yearlyEnergyProduction
        = some (specPeriodTotal a.data "EnergyProductionTotal"))
    ∧ (∀ a, r.aggrCo2Week = .ok a → (fetchAllData st r).weeklyCo2Savings
        = some (specPeriodTotal a.data "SavingsCO2"))
    ∧ (∀ a, r.aggrCo2Month = .ok a → (fetchAllData st r).monthlyCo2Savings
        = some (specPeriodTotal a.data "SavingsCO2"))
    ∧ (∀ a, r.aggrCo2Year = .ok a → (fetchAllData st r).yearlyCo2Savings
        = some (specPeriodTotal a.data "SavingsCO2"))
    ∧ sumChannelTotal rows7 "EnergyProductionTotal" = 6200
    ∧ displayEnergyKWh (some 6200) = "6.2 kWh" := by
  have hsum : sumChannelTotal rows7 "EnergyProductionTotal" = 6200 := by
    rw [sumChannelTotal_eq_spec]
    simp [specPeriodTotal, rows7, mkEnergyRow, findChannelValue, List.find?]
    norm_num
  refine ⟨sumChannelTotal_eq_spec, ?_, ?_, ?_, ?_, ?_, ?_, hsum, ?_⟩
  · intro a ha
    rw [fetchAllData_details_ok st r pid details hAcc hid hd]
    simp only [ha, sumChannelTotal_eq_spec]
  · intro a ha
    rw [fetchAllData_details_ok st r pid details hAcc hid hd]
    simp only [ha, sumChannelTotal_eq_spec]
  · intro a ha
    rw [fetchAllData_details_ok st r pid details hAcc hid hd]
    simp only [ha, sumChannelTotal_eq_spec]
  · intro a ha
    rw [fetchAllData_details_ok st r pid details hAcc hid hd]
    simp only [ha, sumChannelTotal_eq_spec]
  · intro a ha
    rw [fetchAllData_details_ok st r pid details hAcc hid hd]
    simp only [ha, sumChannelTotal_eq_spec]
  · intro a ha
    rw [fetchAllData_details_ok st r pid details hAcc hid hd]
    simp only [ha, sumChannelTotal_eq_spec]
  · have hf : toFixed1 ((6200 : ℚ) / 1000) = "6.2" := by
      have h : ⌊((6200 : ℚ) / 1000) * 10 + 1 / 2⌋ = (62 : ℤ) := by norm_num
      rw [toFixed1, h]
      decide
    show toFixed1 ((6200 : ℚ) / 1000) ++ " kWh" = "6.2 kWh"
    rw [hf]
    decide

theorem claim_C8_witness :
    (fetchAllData (detailReady "pv-1") weekOkFetches).weeklyEnergyProduction
      = some (specPeriodTotal rows7 "EnergyProductionTotal")
    ∧ sumChannelTotal rows7 "EnergyProductionTotal" = 6200
    ∧ displayEnergyKWh (some 6200) = "6.2 kWh" :=
  ⟨(claim_C8 (detailReady "pv-1") weekOkFetches "pv-1" sysAlpha (by decide) rfl rfl).2.1
      ⟨rows7⟩ rfl,
   (claim_C8 (detailReady "pv-1") weekOkFetches "pv-1" sysAlpha (by decide) rfl rfl).2.2.2.2.2.2.2.1,
   (claim_C8 (detailReady "pv-1") weekOkFetches "pv-1" sysAlpha (by decide) rfl rfl).2.2.2.2.2.2.2.2⟩

/-- C9: once the access pre-check has recorded a denial, neither the main
batch nor the historical chart fetch is issued — by the guards inside both
fetchers and by the guards of both effects — `fetchAllData` leaves the
state untouched, and the component renders the access-denied screen. -/
theorem claim_C9 (st : DetailState) (r : DetailFetches) (period : ChartPeriod)
    (h : st.hasAccess = some false) :
    fetchAllData st r = st
    ∧ fetchAllDataRequests st = []
    ∧ fetchHistoricalDataRequests st period = []
    ∧ dataLoadEffectRequests st = []
    ∧ chartLoadEffectRequests st period = []
    ∧ (st.checkingAccess = false → renderScreen st = Screen.accessDenied) := by
  have hb : (st.hasAccess == some false) = true := by simp [h]
  refine ⟨?_, ?_, ?_, ?_, ?_, ?_⟩
  · unfold fetchAllData
    rw [if_pos h]
  · unfold fetchAllDataRequests
    simp [hb]
  · unfold fetchHistoricalDataRequests
    cases hpid : st.pvSystemId <;> simp [hb]
  · unfold dataLoadEffectRequests
    cases hchk : st.checkingAccess <;> simp [hb]
  · unfold chartLoadEffectRequests
    simp [h]
  · intro hchk
    unfold renderScreen
    simp [hb, hchk]

theorem claim_C9_witness :
    fetchAllData detailDenied allFailedFetches = detailDenied
    ∧ dataLoadEffectRequests detailDenied = []
    ∧ chartLoadEffectRequests detailDenied ChartPeriod.day = []
    ∧ renderScreen detailDenied = Screen.accessDenied :=
  ⟨(claim_C9 detailDenied allFailedFetches .day rfl).1,
   (claim_C9 detailDenied allFailedFetches .day rfl).2.2.2.1,
   (claim_C9 detailDenied allFailedFetches .day rfl).2.2.2.2.1,
   (claim_C9 detailDenied allFailedFetches .day rfl).2.2.2.2.2 rfl⟩

/-- C10: a null energy value renders as "N/A"; a non-null value of e Wh
renders as the dollar sign followed by e/1000 kWh times the fixed 0.40
rate with exactly two digits after the decimal point; 6200 Wh renders as
"$2.48". -/
theorem claim_C10 :
    calculateEarnings none = "N/A"
    ∧ (∀ e : ℚ, calculateEarnings (some e) = specEarningsDisplay e)
    ∧ (∀ e : ℚ, ∃ whole frac, calculateEarnings (some e) = "$" ++ whole ++ "." ++ frac
        ∧ frac.length = 2)
    ∧ calculateEarnings (some 6200) = "$2.48" := by
  refine ⟨rfl, ?_, ?_, ?_⟩
  · intro e
    unfold calculateEarnings specEarningsDisplay
    have h : (0.4 : ℚ) = 40 / 100 := by norm_num
    rw [h]
  · intro e
    unfold calculateEarnings toFixed2
    refine ⟨(if ⌊e / 1000 * 0.4 * 100 + 1 / 2⌋ < 0 then "-" else "")
        ++ toString (⌊e / 1000 * 0.4 * 100 + 1 / 2⌋.natAbs / 100),
      pad2 (⌊e / 1000 * 0.4 * 100 + 1 / 2⌋.natAbs % 100), ?_,
      pad2_length (Nat.mod_lt _ (by norm_num))⟩
    simp [String.append_assoc]
  · have h : ⌊(6200 : ℚ) / 1000 * 0.4 * 100 + 1 / 2⌋ = (248 : ℤ) := by norm_num
    show "$" ++ toFixed2 ((6200 : ℚ) / 1000 * 0.4) = "$2.48"
    rw [toFixed2, h]
    decide
